import Mathlib

/-!
Verification of the SimonCani font-to-table tool's core:
the Unicode block classifier (`get_unicode_block` over `unicode_blocks`,
built by `load_unicode_blocks`) and the glyph enrichment pass
(`extract_font_glyphs`), plus the sort-and-project step of `save_table`.

Modelling conventions (shallow embedding of the Python source):
- A Python string is modelled as a `String` where only Unicode-scalar
  content occurs; the `Character` column, which may hold a lone
  surrogate in Python, is modelled as a `List Nat` of code points.
- `chr(code_point)` raises `ValueError` exactly when the argument is
  negative or above `0x10FFFF`; the cmap keys are non-negative, so in
  the enrichment loop this is `codePoint > 0x10FFFF`.  Lone surrogates
  (0xD800-0xDFFF) are valid Python strings, so `chr` succeeds on them.
- The host Unicode database calls (`unicodedata.category`,
  `unicodedata.name`) and the font's `getGlyphName` are oracles of type
  `Nat → Option String` / `String → Option String`; `none` stands for
  the call raising, which the source code catches with a fallback.
- The per-item `try/except: continue` of the extraction loop is the
  `Option` in `processGlyph`: `none` is a skipped item.
-/

/-- A `(start, end, name)` block range as in `load_unicode_blocks`. -/
abbrev BlockRange := Int × Int × String

/-- `get_unicode_block`: scan the ranges in order; return the name of the
first range `(s, e, _)` with `s <= codePoint <= e`, else `"Unassigned"`.
Direct translation of the loop in the source (the table is a parameter,
`self.unicode_blocks` at the call sites). -/
def get_unicode_block (blocks : List BlockRange) (codePoint : Int) : String :=
  match blocks with
  | [] => "Unassigned"
  | (s, e, name) :: rest =>
    if s ≤ codePoint ∧ codePoint ≤ e then name
    else get_unicode_block rest codePoint

/-- The table built by `load_unicode_blocks`: the literal `blocks` list
concatenated with `private_use_blocks` and sorted ascending (Python
`list.sort()` on the tuples; the only entries sharing a `(start, end)`
key are exact duplicates, so the tuple sort is determined by this
listing). 309 entries. -/
def unicode_blocks : List BlockRange := [
  (0x0, 0x7F, "Basic Latin"),
  (0x80, 0xFF, "Latin-1 Supplement"),
  (0x100, 0x17F, "Latin Extended-A"),
  (0x180, 0x24F, "Latin Extended-B"),
  (0x250, 0x2AF, "IPA Extensions"),
  (0x2B0, 0x2FF, "Spacing Modifier Letters"),
  (0x300, 0x36F, "Combining Diacritical Marks"),
  (0x370, 0x3FF, "Greek and Coptic"),
  (0x400, 0x4FF, "Cyrillic"),
  (0x500, 0x52F, "Cyrillic Supplement"),
  (0x530, 0x58F, "Armenian"),
  (0x590, 0x5FF, "Hebrew"),
  (0x600, 0x6FF, "Arabic"),
  (0x700, 0x74F, "Syriac"),
  (0x750, 0x77F, "Arabic Supplement"),
  (0x780, 0x7BF, "Thaana"),
  (0x7C0, 0x7FF, "NKo"),
  (0x800, 0x83F, "Samaritan"),
  (0x840, 0x85F, "Mandaic"),
  (0x860, 0x86F, "Syriac Supplement"),
  (0x870, 0x89F, "Arabic Extended-B"),
  (0x8A0, 0x8FF, "Arabic Extended-A"),
  (0x900, 0x97F, "Devanagari"),
  (0x980, 0x9FF, "Bengali"),
  (0xA00, 0xA7F, "Gurmukhi"),
  (0xA80, 0xAFF, "Gujarati"),
  (0xB00, 0xB7F, "Oriya"),
  (0xB80, 0xBFF, "Tamil"),
  (0xC00, 0xC7F, "Telugu"),
  (0xC80, 0xCFF, "Kannada"),
  (0xD00, 0xD7F, "Malayalam"),
  (0xD80, 0xDFF, "Sinhala"),
  (0xE00, 0xE7F, "Thai"),
  (0xE80, 0xEFF, "Lao"),
  (0xF00, 0xFFF, "Tibetan"),
  (0x1000, 0x109F, "Myanmar"),
  (0x10A0, 0x10FF, "Georgian"),
  (0x1100, 0x11FF, "Hangul Jamo"),
  (0x1200, 0x137F, "Ethiopic"),
  (0x1380, 0x139F, "Ethiopic Supplement"),
  (0x13A0, 0x13FF, "Cherokee"),
  (0x1400, 0x167F, "Unified Canadian Aboriginal Syllabics"),
  (0x1680, 0x169F, "Ogham"),
  (0x16A0, 0x16FF, "Runic"),
  (0x1700, 0x171F, "Tagalog"),
  (0x1720, 0x173F, "Hanunoo"),
  (0x1740, 0x175F, "Buhid"),
  (0x1760, 0x177F, "Tagbanwa"),
  (0x1780, 0x17FF, "Khmer"),
  (0x1800, 0x18AF, "Mongolian"),
  (0x18B0, 0x18FF, "Unified Canadian Aboriginal Syllabics Extended"),
  (0x1900, 0x194F, "Limbu"),
  (0x1950, 0x197F, "Tai Le"),
  (0x1980, 0x19DF, "New Tai Lue"),
  (0x19E0, 0x19FF, "Khmer Symbols"),
  (0x1A00, 0x1A1F, "Buginese"),
  (0x1A20, 0x1AAF, "Tai Tham"),
  (0x1AB0, 0x1AFF, "Combining Diacritical Marks Extended"),
  (0x1B00, 0x1B7F, "Balinese"),
  (0x1B80, 0x1BBF, "Sundanese"),
  (0x1BC0, 0x1BFF, "Batak"),
  (0x1C00, 0x1C4F, "Lepcha"),
  (0x1C50, 0x1C7F, "Ol Chiki"),
  (0x1C80, 0x1C8F, "Cyrillic Extended-C"),
  (0x1C90, 0x1CBF, "Georgian Extended"),
  (0x1CC0, 0x1CCF, "Sundanese Supplement"),
  (0x1CD0, 0x1CFF, "Vedic Extensions"),
  (0x1D00, 0x1D7F, "Phonetic Extensions"),
  (0x1D80, 0x1DBF, "Phonetic Extensions Supplement"),
  (0x1DC0, 0x1DFF, "Combining Diacritical Marks Supplement"),
  (0x1E00, 0x1EFF, "Latin Extended Additional"),
  (0x1F00, 0x1FFF, "Greek Extended"),
  (0x2000, 0x206F, "General Punctuation"),
  (0x2070, 0x209F, "Superscripts and Subscripts"),
  (0x20A0, 0x20CF, "Currency Symbols"),
  (0x20D0, 0x20FF, "Combining Diacritical Marks for Symbols"),
  (0x2100, 0x214F, "Letterlike Symbols"),
  (0x2150, 0x218F, "Number Forms"),
  (0x2190, 0x21FF, "Arrows"),
  (0x2200, 0x22FF, "Mathematical Operators"),
  (0x2300, 0x23FF, "Miscellaneous Technical"),
  (0x2400, 0x243F, "Control Pictures"),
  (0x2440, 0x245F, "Optical Character Recognition"),
  (0x2460, 0x24FF, "Enclosed Alphanumerics"),
  (0x2500, 0x257F, "Box Drawing"),
  (0x2580, 0x259F, "Block Elements"),
  (0x25A0, 0x25FF, "Geometric Shapes"),
  (0x2600, 0x26FF, "Miscellaneous Symbols"),
  (0x2700, 0x27BF, "Dingbats"),
  (0x27C0, 0x27EF, "Miscellaneous Mathematical Symbols-A"),
  (0x27F0, 0x27FF, "Supplemental Arrows-A"),
  (0x2800, 0x28FF, "Braille Patterns"),
  (0x2900, 0x297F, "Supplemental Arrows-B"),
  (0x2980, 0x29FF, "Miscellaneous Mathematical Symbols-B"),
  (0x2A00, 0x2AFF, "Supplemental Mathematical Operators"),
  (0x2B00, 0x2BFF, "Miscellaneous Symbols and Arrows"),
  (0x2C00, 0x2C5F, "Glagolitic"),
  (0x2C60, 0x2C7F, "Latin Extended-C"),
  (0x2C80, 0x2CFF, "Coptic"),
  (0x2D00, 0x2D2F, "Georgian Supplement"),
  (0x2D30, 0x2D7F, "Tifinagh"),
  (0x2D80, 0x2DDF, "Ethiopic Extended"),
  (0x2DE0, 0x2DFF, "Cyrillic Extended-A"),
  (0x2E00, 0x2E7F, "Supplemental Punctuation"),
  (0x2E80, 0x2EFF, "CJK Radicals Supplement"),
  (0x2F00, 0x2FDF, "Kangxi Radicals"),
  (0x2FF0, 0x2FFF, "Ideographic Description Characters"),
  (0x3000, 0x303F, "CJK Symbols and Punctuation"),
  (0x3040, 0x309F, "Hiragana"),
  (0x30A0, 0x30FF, "Katakana"),
  (0x3100, 0x312F, "Bopomofo"),
  (0x3130, 0x318F, "Hangul Compatibility Jamo"),
  (0x3190, 0x319F, "Kanbun"),
  (0x31A0, 0x31BF, "Bopomofo Extended"),
  (0x31C0, 0x31EF, "CJK Strokes"),
  (0x31F0, 0x31FF, "Katakana Phonetic Extensions"),
  (0x3200, 0x32FF, "Enclosed CJK Letters and Months"),
  (0x3300, 0x33FF, "CJK Compatibility"),
  (0x3400, 0x4DBF, "CJK Unified Ideographs Extension A"),
  (0x4DC0, 0x4DFF, "Yijing Hexagram Symbols"),
  (0x4E00, 0x9FFF, "CJK Unified Ideographs"),
  (0xA000, 0xA48F, "Yi Syllables"),
  (0xA490, 0xA4CF, "Yi Radicals"),
  (0xA4D0, 0xA4FF, "Lisu"),
  (0xA500, 0xA63F, "Vai"),
  (0xA640, 0xA69F, "Cyrillic Extended-B"),
  (0xA6A0, 0xA6FF, "Bamum"),
  (0xA700, 0xA71F, "Modifier Tone Letters"),
  (0xA720, 0xA7FF, "Latin Extended-D"),
  (0xA800, 0xA82F, "Syloti Nagri"),
  (0xA830, 0xA83F, "Common Indic Number Forms"),
  (0xA840, 0xA87F, "Phags-pa"),
  (0xA880, 0xA8DF, "Saurashtra"),
  (0xA8E0, 0xA8FF, "Devanagari Extended"),
  (0xA900, 0xA92F, "Kayah Li"),
  (0xA930, 0xA95F, "Rejang"),
  (0xA960, 0xA97F, "Hangul Jamo Extended-A"),
  (0xA980, 0xA9DF, "Javanese"),
  (0xA9E0, 0xA9FF, "Myanmar Extended-B"),
  (0xAA00, 0xAA5F, "Cham"),
  (0xAA60, 0xAA7F, "Myanmar Extended-A"),
  (0xAA80, 0xAADF, "Tai Viet"),
  (0xAAE0, 0xAAFF, "Meetei Mayek Extensions"),
  (0xAB00, 0xAB2F, "Ethiopic Extended-A"),
  (0xAB30, 0xAB6F, "Latin Extended-E"),
  (0xAB70, 0xABBF, "Cherokee Supplement"),
  (0xABC0, 0xABFF, "Meetei Mayek"),
  (0xAC00, 0xD7AF, "Hangul Syllables"),
  (0xD7B0, 0xD7FF, "Hangul Jamo Extended-B"),
  (0xE000, 0xF8FF, "Private Use Area"),
  (0xF900, 0xFAFF, "CJK Compatibility Ideographs"),
  (0xFB00, 0xFB4F, "Alphabetic Presentation Forms"),
  (0xFB50, 0xFDFF, "Arabic Presentation Forms-A"),
  (0xFE00, 0xFE0F, "Variation Selectors"),
  (0xFE10, 0xFE1F, "Vertical Forms"),
  (0xFE20, 0xFE2F, "Combining Half Marks"),
  (0xFE30, 0xFE4F, "CJK Compatibility Forms"),
  (0xFE50, 0xFE6F, "Small Form Variants"),
  (0xFE70, 0xFEFF, "Arabic Presentation Forms-B"),
  (0xFF00, 0xFFEF, "Halfwidth and Fullwidth Forms"),
  (0xFFF0, 0xFFFF, "Specials"),
  (0x10000, 0x1007F, "Linear B Syllabary"),
  (0x10080, 0x100FF, "Linear B Ideograms"),
  (0x10100, 0x1013F, "Aegean Numbers"),
  (0x10140, 0x1018F, "Ancient Greek Numbers"),
  (0x10190, 0x101CF, "Ancient Symbols"),
  (0x101D0, 0x101FF, "Phaistos Disc"),
  (0x10280, 0x1029F, "Lycian"),
  (0x102A0, 0x102DF, "Carian"),
  (0x102E0, 0x102FF, "Coptic Epact Numbers"),
  (0x10300, 0x1032F, "Old Italic"),
  (0x10330, 0x1034F, "Gothic"),
  (0x10350, 0x1037F, "Old Permic"),
  (0x10380, 0x1039F, "Ugaritic"),
  (0x103A0, 0x103DF, "Old Persian"),
  (0x10400, 0x1044F, "Deseret"),
  (0x10450, 0x1047F, "Shavian"),
  (0x10480, 0x104AF, "Osmanya"),
  (0x104B0, 0x104FF, "Osage"),
  (0x10500, 0x1052F, "Elbasan"),
  (0x10530, 0x1056F, "Caucasian Albanian"),
  (0x10600, 0x1077F, "Linear A"),
  (0x10800, 0x1083F, "Cypriot Syllabary"),
  (0x10840, 0x1085F, "Imperial Aramaic"),
  (0x10860, 0x1087F, "Palmyrene"),
  (0x10880, 0x108AF, "Nabataean"),
  (0x108E0, 0x108FF, "Hatran"),
  (0x10900, 0x1091F, "Phoenician"),
  (0x10920, 0x1093F, "Lydian"),
  (0x10980, 0x1099F, "Meroitic Hieroglyphs"),
  (0x109A0, 0x109FF, "Meroitic Cursive"),
  (0x10A00, 0x10A5F, "Kharoshthi"),
  (0x10A60, 0x10A7F, "Old South Arabian"),
  (0x10A80, 0x10A9F, "Old North Arabian"),
  (0x10AC0, 0x10AFF, "Manichaean"),
  (0x10B00, 0x10B3F, "Avestan"),
  (0x10B40, 0x10B5F, "Inscriptional Parthian"),
  (0x10B60, 0x10B7F, "Inscriptional Pahlavi"),
  (0x10B80, 0x10BAF, "Psalter Pahlavi"),
  (0x10C00, 0x10C4F, "Old Turkic"),
  (0x10C80, 0x10CFF, "Old Hungarian"),
  (0x10E60, 0x10E7F, "Rumi Numeral Symbols"),
  (0x10F00, 0x10F2F, "Old Sogdian"),
  (0x10F30, 0x10F6F, "Sogdian"),
  (0x10FB0, 0x10FDF, "Chorasmian"),
  (0x10FE0, 0x10FFF, "Elymaic"),
  (0x11000, 0x1107F, "Brahmi"),
  (0x11080, 0x110CF, "Kaithi"),
  (0x110D0, 0x110FF, "Sora Sompeng"),
  (0x11100, 0x1114F, "Chakma"),
  (0x11150, 0x1117F, "Mahajani"),
  (0x11180, 0x111DF, "Sharada"),
  (0x111E0, 0x111FF, "Sinhala Archaic Numbers"),
  (0x11200, 0x1124F, "Khojki"),
  (0x11280, 0x112AF, "Multani"),
  (0x112B0, 0x112FF, "Khudawadi"),
  (0x11300, 0x1137F, "Grantha"),
  (0x11400, 0x1147F, "Newa"),
  (0x11480, 0x114DF, "Tirhuta"),
  (0x11580, 0x115FF, "Siddham"),
  (0x11600, 0x1165F, "Modi"),
  (0x11660, 0x1167F, "Mongolian Supplement"),
  (0x11680, 0x116CF, "Takri"),
  (0x11700, 0x1174F, "Ahom"),
  (0x11800, 0x1184F, "Dogra"),
  (0x118A0, 0x118FF, "Warang Citi"),
  (0x11900, 0x1195F, "Dives Akuru"),
  (0x119A0, 0x119FF, "Nandinagari"),
  (0x11A00, 0x11A4F, "Zanabazar Square"),
  (0x11A50, 0x11AAF, "Soyombo"),
  (0x11AC0, 0x11AFF, "Pau Cin Hau"),
  (0x11C00, 0x11C6F, "Bhaiksuki"),
  (0x11C70, 0x11CBF, "Marchen"),
  (0x11D00, 0x11D5F, "Masaram Gondi"),
  (0x11D60, 0x11DAF, "Gunjala Gondi"),
  (0x11EE0, 0x11EFF, "Makasar"),
  (0x11FB0, 0x11FBF, "Lisu Supplement"),
  (0x11FC0, 0x11FFF, "Tamil Supplement"),
  (0x12000, 0x123FF, "Cuneiform"),
  (0x12400, 0x1247F, "Cuneiform Numbers and Punctuation"),
  (0x12480, 0x1254F, "Early Dynastic Cuneiform"),
  (0x13000, 0x1342F, "Egyptian Hieroglyphs"),
  (0x13430, 0x1343F, "Egyptian Hieroglyph Format Controls"),
  (0x14400, 0x1467F, "Anatolian Hieroglyphs"),
  (0x16800, 0x16A3F, "Bamum Supplement"),
  (0x16A40, 0x16A6F, "Mro"),
  (0x16AD0, 0x16AFF, "Bassa Vah"),
  (0x16B00, 0x16B8F, "Pahawh Hmong"),
  (0x16E40, 0x16E9F, "Medefaidrin"),
  (0x16F00, 0x16F9F, "Miao"),
  (0x16FE0, 0x16FFF, "Ideographic Symbols and Punctuation"),
  (0x17000, 0x187FF, "Tangut"),
  (0x18800, 0x18AFF, "Tangut Components"),
  (0x18B00, 0x18CFF, "Khitan Small Script"),
  (0x18D00, 0x18D7F, "Tangut Supplement"),
  (0x1B000, 0x1B0FF, "Kana Supplement"),
  (0x1B100, 0x1B12F, "Kana Extended-A"),
  (0x1B130, 0x1B16F, "Small Kana Extension"),
  (0x1B170, 0x1B2FF, "Nüshu"),
  (0x1BC00, 0x1BC9F, "Duployan"),
  (0x1BCA0, 0x1BCAF, "Shorthand Format Controls"),
  (0x1D000, 0x1D0FF, "Byzantine Musical Symbols"),
  (0x1D100, 0x1D1FF, "Musical Symbols"),
  (0x1D200, 0x1D24F, "Ancient Greek Musical Notation"),
  (0x1D2E0, 0x1D2FF, "Mayan Numerals"),
  (0x1D300, 0x1D35F, "Tai Xuan Jing Symbols"),
  (0x1D360, 0x1D37F, "Counting Rod Numerals"),
  (0x1D400, 0x1D7FF, "Mathematical Alphanumeric Symbols"),
  (0x1D800, 0x1DAAF, "Sutton SignWriting"),
  (0x1E000, 0x1E02F, "Glagolitic Supplement"),
  (0x1E100, 0x1E14F, "Nyiakeng Puachue Hmong"),
  (0x1E290, 0x1E2BF, "Toto"),
  (0x1E2C0, 0x1E2FF, "Wancho"),
  (0x1E7E0, 0x1E7FF, "Ethiopic Extended-B"),
  (0x1E800, 0x1E8DF, "Mende Kikakui"),
  (0x1E900, 0x1E95F, "Adlam"),
  (0x1EC70, 0x1ECBF, "Indic Siyaq Numbers"),
  (0x1ED00, 0x1ED4F, "Ottoman Siyaq Numbers"),
  (0x1EE00, 0x1EEFF, "Arabic Mathematical Alphabetic Symbols"),
  (0x1F000, 0x1F02F, "Mahjong Tiles"),
  (0x1F030, 0x1F09F, "Domino Tiles"),
  (0x1F0A0, 0x1F0FF, "Playing Cards"),
  (0x1F100, 0x1F1FF, "Enclosed Alphanumeric Supplement"),
  (0x1F200, 0x1F2FF, "Enclosed Ideographic Supplement"),
  (0x1F300, 0x1F5FF, "Miscellaneous Symbols and Pictographs"),
  (0x1F600, 0x1F64F, "Emoticons"),
  (0x1F650, 0x1F67F, "Ornamental Dingbats"),
  (0x1F680, 0x1F6FF, "Transport and Map Symbols"),
  (0x1F700, 0x1F77F, "Alchemical Symbols"),
  (0x1F780, 0x1F7FF, "Geometric Shapes Extended"),
  (0x1F800, 0x1F8FF, "Supplemental Arrows-C"),
  (0x1F900, 0x1F9FF, "Supplemental Symbols and Pictographs"),
  (0x1FA00, 0x1FA6F, "Chess Symbols"),
  (0x1FA70, 0x1FAFF, "Symbols and Pictographs Extended-A"),
  (0x1FB00, 0x1FBFF, "Symbols for Legacy Computing"),
  (0x20000, 0x2A6DF, "CJK Unified Ideographs Extension B"),
  (0x2A700, 0x2B73F, "CJK Unified Ideographs Extension C"),
  (0x2B740, 0x2B81F, "CJK Unified Ideographs Extension D"),
  (0x2B820, 0x2CEAF, "CJK Unified Ideographs Extension E"),
  (0x2CEB0, 0x2EBEF, "CJK Unified Ideographs Extension F"),
  (0x2F800, 0x2FA1F, "CJK Compatibility Ideographs Supplement"),
  (0x30000, 0x3134F, "CJK Unified Ideographs Extension G"),
  (0x31350, 0x323AF, "CJK Unified Ideographs Extension H"),
  (0xE0000, 0xE007F, "Tags"),
  (0xE0100, 0xE01EF, "Variation Selectors Supplement"),
  (0xF0000, 0xFFFFF, "Supplementary Private Use Area-A"),
  (0xF0000, 0xFFFFF, "Supplementary Private Use Area-A"),
  (0x100000, 0x10FFFF, "Supplementary Private Use Area-B"),
  (0x100000, 0x10FFFF, "Supplementary Private Use Area-B")
]

/-- Host-library oracles for the three fallible calls in the extraction
loop.  `none` models the call raising (the source catches each one). -/
structure Oracles where
  category : Nat → Option String
  uname : Nat → Option String
  glyphName : String → Option String

/-- One output row, the dict appended to `glyphs_data` by
`extract_font_glyphs`.  `displayChar` is a Python string as a list of
code points (it may hold a lone surrogate). -/
structure GlyphRecord where
  displayChar : List Nat
  unicodeHex : String
  unicodeName : String
  unicodeBlock : String
  glyphName : String
  codePoint : Nat
  category : String
deriving DecidableEq, Repr

/-- Hex digit characters for Python's uppercase `X` format. -/
def hexDigit (n : Nat) : Char :=
  if n < 10 then Char.ofNat (48 + n) else Char.ofNat (55 + n)

/-- Fuel-driven digit extraction: with fuel at least one more than the
number of divisions by 16, this is the uppercase hexadecimal expansion,
most significant digit first. -/
def hexDigitsAux : Nat → Nat → List Char
  | 0, _ => []
  | fuel + 1, n =>
    if n < 16 then [hexDigit n]
    else hexDigitsAux fuel (n / 16) ++ [hexDigit (n % 16)]

/-- Uppercase hexadecimal digits of `n`, most significant first
(`n + 1` units of fuel always suffice since the value shrinks by a
factor of 16 every step). -/
def hexDigits (n : Nat) : List Char := hexDigitsAux (n + 1) n

/-- Python's `f"U+{code_point:04X}"`: "U+" then uppercase hex zero-padded
on the left to a minimum of four digits. -/
def formatUnicodeHex (codePoint : Nat) : String :=
  let ds := hexDigits codePoint
  "U+" ++ String.mk (List.replicate (4 - ds.length) '0' ++ ds)

/-- Python's `str.startswith` on character lists: `pre` read off the
front of `s`. -/
def charListStartsWith : List Char → List Char → Bool
  | _, [] => true
  | [], _ :: _ => false
  | c :: cs, p :: ps => (c == p) && charListStartsWith cs ps

/-- Python's `category.startswith(pre)`. -/
def strStartsWith (s pre : String) : Bool := charListStartsWith s.data pre.data

/-- The placeholder glyph "□" (U+25A1) used for control characters when
previews are suppressed. -/
def placeholderChar : List Nat := [0x25A1]

/-- `unicodedata.name(char)` wrapped by `get_unicode_name`: fall back to
"Unnamed Character" when the database raises `ValueError`. -/
def get_unicode_name (o : Oracles) (codePoint : Nat) : String :=
  (o.uname codePoint).getD "Unnamed Character"

/-- `font.getGlyphName(glyph_id)` wrapped by `get_glyph_name`: fall back
to the synthetic label `f"glyph_{glyph_id}"` when the font raises. -/
def get_glyph_name (o : Oracles) (glyphId : String) : String :=
  (o.glyphName glyphId).getD ("glyph_" ++ glyphId)

/-- The body of the per-item loop of `extract_font_glyphs`, lines
672-712 of the English source.  `none` is a skipped item: either the
`continue` of the control-character filter, or the outer
`except: continue` absorbing the `ValueError` that `chr` raises on a
code point above 0x10FFFF (cmap keys are non-negative). -/
def processGlyph (o : Oracles) (include_control_chars show_preview : Bool)
    (codePoint : Nat) (glyphId : String) : Option GlyphRecord :=
  if codePoint > 0x10FFFF then none
  else
    let category := (o.category codePoint).getD "Cn"
    if !include_control_chars && strStartsWith category "C" then none
    else
      let displayChar :=
        if !show_preview && strStartsWith category "C" then placeholderChar
        else [codePoint]
      some {
        displayChar := displayChar
        unicodeHex := formatUnicodeHex codePoint
        unicodeName := get_unicode_name o codePoint
        unicodeBlock := get_unicode_block unicode_blocks (codePoint : Int)
        glyphName := get_glyph_name o glyphId
        codePoint := codePoint
        category := category }

/-- `extract_font_glyphs`, with the cmap as an association list in the
dict's iteration order and the font/GUI plumbing stripped: each entry
yields at most one record, in input order. -/
def extract_font_glyphs (o : Oracles) (include_control_chars show_preview : Bool)
    (cmap : List (Nat × String)) : List GlyphRecord :=
  cmap.filterMap (fun cg => processGlyph o include_control_chars show_preview cg.1 cg.2)

/-- The sort key of `save_table`'s `df.sort_values("CodePoint")`. -/
def recLE (a b : GlyphRecord) : Prop := a.codePoint ≤ b.codePoint

instance : DecidableRel recLE := fun a b => Nat.decLe a.codePoint b.codePoint

instance : IsTotal GlyphRecord recLE := ⟨fun a b => Nat.le_total a.codePoint b.codePoint⟩

instance : IsTrans GlyphRecord recLE := ⟨fun _ _ _ => Nat.le_trans⟩

/-- `df.sort_values("CodePoint")`: sort the records ascending by their
integer code point (code points are unique in any real input, so the
choice of stable sort is immaterial). -/
def sortByCodePoint (data : List GlyphRecord) : List GlyphRecord :=
  data.insertionSort recLE

/-- A serialized row after `save_table` drops the internal `CodePoint`
and `Category` columns: only the five exported fields remain. -/
structure FlatRecord where
  displayChar : List Nat
  unicodeHex : String
  unicodeName : String
  unicodeBlock : String
  glyphName : String
deriving DecidableEq, Repr

/-- The column projection performed by
`df.drop(columns=["CodePoint", "Category"])`. -/
def dropInternalColumns (r : GlyphRecord) : FlatRecord :=
  { displayChar := r.displayChar
    unicodeHex := r.unicodeHex
    unicodeName := r.unicodeName
    unicodeBlock := r.unicodeBlock
    glyphName := r.glyphName }

/-- The data transformation of `save_table` before the format-specific
writer: sort by `CodePoint`, then drop `CodePoint` and `Category`. -/
def save_table (data : List GlyphRecord) : List FlatRecord :=
  (sortByCodePoint data).map dropInternalColumns

/-- The spec's `enrich`: the extraction loop composed with the explicit
`CodePoint` sort that `save_table` applies to its output (the claims
cite both `extract_font_glyphs` and the sorting lines of `save_table`). -/
def enrich (o : Oracles) (include_control_chars show_preview : Bool)
    (cmap : List (Nat × String)) : List GlyphRecord :=
  sortByCodePoint (extract_font_glyphs o include_control_chars show_preview cmap)

/-! ### Block classifier lemmas -/

/-- First-match characterisation of the lookup loop in terms of
`List.find?`. -/
theorem get_unicode_block_eq_find (blocks : List BlockRange) (p : Int) :
    get_unicode_block blocks p =
      ((blocks.find? (fun r => decide (r.1 ≤ p ∧ p ≤ r.2.1))).map
        (fun r => r.2.2)).getD "Unassigned" := by
  induction blocks with
  | nil => rfl
  | cons hd tl ih =>
    obtain ⟨s, e, name⟩ := hd
    by_cases h : s ≤ p ∧ p ≤ e
    · rw [List.find?_cons_of_pos _ (by simpa using h)]
      simp only [get_unicode_block, if_pos h]
      rfl
    · rw [List.find?_cons_of_neg _ (by simpa using h)]
      simp only [get_unicode_block, if_neg h]
      exact ih

/-- If no range of the table contains `p`, the loop falls through to the
sentinel. -/
theorem get_unicode_block_eq_sentinel (blocks : List BlockRange) (p : Int)
    (h : ∀ r ∈ blocks, ¬(r.1 ≤ p ∧ p ≤ r.2.1)) :
    get_unicode_block blocks p = "Unassigned" := by
  induction blocks with
  | nil => rfl
  | cons hd tl ih =>
    obtain ⟨s, e, name⟩ := hd
    have hhd := h (s, e, name) (List.mem_cons_self _ _)
    simp only [get_unicode_block, if_neg hhd]
    exact ih fun r hr => h r (List.mem_cons_of_mem _ hr)

/-- The lookup result is either the sentinel or one of the table's
names. -/
theorem get_unicode_block_mem_or (blocks : List BlockRange) (p : Int) :
    get_unicode_block blocks p = "Unassigned" ∨
      ∃ r ∈ blocks, get_unicode_block blocks p = r.2.2 := by
  induction blocks with
  | nil => exact Or.inl rfl
  | cons hd tl ih =>
    obtain ⟨s, e, name⟩ := hd
    by_cases h : s ≤ p ∧ p ≤ e
    · refine Or.inr ⟨(s, e, name), List.mem_cons_self _ _, ?_⟩
      simp only [get_unicode_block, if_pos h]
    · simp only [get_unicode_block, if_neg h]
      rcases ih with h' | ⟨r, hr, h'⟩
      · exact Or.inl h'
      · exact Or.inr ⟨r, List.mem_cons_of_mem _ hr, h'⟩

set_option maxRecDepth 40000 in
/-- Every block name in the source table is a non-empty string. -/
theorem unicode_blocks_names_nonempty :
    ∀ r ∈ unicode_blocks, 0 < r.2.2.length := by decide

set_option maxRecDepth 40000 in
/-- Every range in the source table lies inside `[0, 0x10FFFF]`. -/
theorem unicode_blocks_ranges_bounded :
    ∀ r ∈ unicode_blocks, 0 ≤ r.1 ∧ r.2.1 ≤ 0x10FFFF := by decide

/-- C1: for every code point and every block table, the lookup returns
the name of the first range `(start, end, name)` in iteration order with
`start <= p <= end` (both boundaries inclusive), and the constant
"Unassigned" sentinel when no range contains `p`; on the table
`[(0x0041, 0x005A, "Test")]`, lookup of 0x41 and 0x5A is "Test" while
lookup of 0x40 and 0x5B is not. -/
theorem claim_C1 :
    (∀ (blocks : List BlockRange) (p : Int),
      get_unicode_block blocks p =
        ((blocks.find? (fun r => decide (r.1 ≤ p ∧ p ≤ r.2.1))).map
          (fun r => r.2.2)).getD "Unassigned")
    ∧ get_unicode_block [(0x41, 0x5A, "Test")] 0x41 = "Test"
    ∧ get_unicode_block [(0x41, 0x5A, "Test")] 0x5A = "Test"
    ∧ get_unicode_block [(0x41, 0x5A, "Test")] 0x40 ≠ "Test"
    ∧ get_unicode_block [(0x41, 0x5A, "Test")] 0x5B ≠ "Test" :=
  ⟨get_unicode_block_eq_find, by decide, by decide, by decide, by decide⟩

/-- C7: `get_unicode_block` over the source's table is a total function
returning a non-empty string for every integer input, and every
out-of-range input (negative or above 0x10FFFF) yields the "Unassigned"
sentinel rather than an error. -/
theorem claim_C7 :
    (∀ p : Int, 0 < (get_unicode_block unicode_blocks p).length)
    ∧ (∀ p : Int, (p < 0 ∨ 0x10FFFF < p) →
        get_unicode_block unicode_blocks p = "Unassigned") := by
  constructor
  · intro p
    rcases get_unicode_block_mem_or unicode_blocks p with h | ⟨r, hr, h⟩
    · rw [h]; decide
    · rw [h]; exact unicode_blocks_names_nonempty r hr
  · intro p hp
    apply get_unicode_block_eq_sentinel
    intro r hr
    have hb := unicode_blocks_ranges_bounded r hr
    rintro ⟨h1, h2⟩
    rcases hp with hp | hp <;> omega

/-- C7 witness: concrete out-of-range inputs resolve to the sentinel,
and a concrete huge input still yields a non-empty string. -/
theorem claim_C7_witness :
    (((-1 : Int) < 0 ∨ (0x10FFFF : Int) < -1) ∧
      get_unicode_block unicode_blocks (-1) = "Unassigned") ∧
    (((0x110000 : Int) < 0 ∨ (0x10FFFF : Int) < 0x110000) ∧
      get_unicode_block unicode_blocks 0x110000 = "Unassigned") ∧
    0 < (get_unicode_block unicode_blocks 0x4E2D).length :=
  ⟨⟨Or.inl (by decide), claim_C7.2 (-1) (Or.inl (by decide))⟩,
   ⟨Or.inr (by decide), claim_C7.2 0x110000 (Or.inr (by decide))⟩,
   claim_C7.1 0x4E2D⟩

/-! ### Enrichment loop lemmas -/

/-- The record a successful `processGlyph` builds, spelled out in terms
of the inputs. -/
def builtRecord (o : Oracles) (sp : Bool) (codePoint : Nat) (glyphId : String) :
    GlyphRecord :=
  { displayChar :=
      if !sp && strStartsWith ((o.category codePoint).getD "Cn") "C" then placeholderChar
      else [codePoint]
    unicodeHex := formatUnicodeHex codePoint
    unicodeName := get_unicode_name o codePoint
    unicodeBlock := get_unicode_block unicode_blocks (codePoint : Int)
    glyphName := get_glyph_name o glyphId
    codePoint := codePoint
    category := (o.category codePoint).getD "Cn" }

/-- Success characterisation of the per-item step. -/
theorem processGlyph_some_iff (o : Oracles) (icc sp : Bool) (cp : Nat)
    (g : String) (r : GlyphRecord) :
    processGlyph o icc sp cp g = some r ↔
      cp ≤ 0x10FFFF ∧
      (!icc && strStartsWith ((o.category cp).getD "Cn") "C") = false ∧
      r = builtRecord o sp cp g := by
  simp only [processGlyph]
  split
  · rename_i h1
    constructor
    · intro h
      cases h
    · rintro ⟨h, -, -⟩
      omega
  · rename_i h1
    split
    · rename_i h2
      simp [h2]
    · rename_i h2
      simp only [Bool.not_eq_true] at h2
      simp only [Option.some.injEq, builtRecord]
      constructor
      · intro h
        exact ⟨by omega, h2, h.symm⟩
      · rintro ⟨-, -, h⟩
        exact h.symm

/-- A produced record carries the code point it was built from. -/
theorem processGlyph_codePoint {o : Oracles} {icc sp : Bool} {cp : Nat}
    {g : String} {r : GlyphRecord}
    (h : processGlyph o icc sp cp g = some r) : r.codePoint = cp := by
  rcases (processGlyph_some_iff o icc sp cp g r).mp h with ⟨-, -, rfl⟩
  rfl

/-- With `include_control_chars = true` the filter never fires: every
in-range code point yields its record. -/
theorem processGlyph_some_of_include {o : Oracles} {sp : Bool} {cp : Nat}
    {g : String} (hcp : cp ≤ 0x10FFFF) :
    processGlyph o true sp cp g = some (builtRecord o sp cp g) := by
  rw [processGlyph_some_iff]
  exact ⟨hcp, by simp, rfl⟩

/-- With `include_control_chars = false`, a category starting with "C"
is dropped by the filter. -/
theorem processGlyph_none_of_filter {o : Oracles} {sp : Bool} {cp : Nat}
    {g : String} (hc : strStartsWith ((o.category cp).getD "Cn") "C" = true) :
    processGlyph o false sp cp g = none := by
  cases h : processGlyph o false sp cp g with
  | none => rfl
  | some r =>
    rcases (processGlyph_some_iff o false sp cp g r).mp h with ⟨-, hcond, -⟩
    rw [Bool.not_false, Bool.true_and, hc] at hcond
    cases hcond

/-- An out-of-range code point makes `chr` raise; the item is skipped. -/
theorem processGlyph_none_of_invalid {o : Oracles} {icc sp : Bool} {cp : Nat}
    {g : String} (hcp : 0x10FFFF < cp) :
    processGlyph o icc sp cp g = none := by
  simp only [processGlyph]
  rw [if_pos hcp]

/-- Unfolding of the extraction loop on a cons cell. -/
theorem extract_font_glyphs_cons (o : Oracles) (icc sp : Bool)
    (hd : Nat × String) (tl : List (Nat × String)) :
    extract_font_glyphs o icc sp (hd :: tl) =
      match processGlyph o icc sp hd.1 hd.2 with
      | none => extract_font_glyphs o icc sp tl
      | some r => r :: extract_font_glyphs o icc sp tl := by
  cases h : processGlyph o icc sp hd.1 hd.2 with
  | none => simp only [extract_font_glyphs, List.filterMap_cons, h]
  | some r => simp only [extract_font_glyphs, List.filterMap_cons, h]

/-- Membership in the extraction output. -/
theorem mem_extract_iff (o : Oracles) (icc sp : Bool)
    (cmap : List (Nat × String)) (r : GlyphRecord) :
    r ∈ extract_font_glyphs o icc sp cmap ↔
      ∃ cg ∈ cmap, processGlyph o icc sp cg.1 cg.2 = some r := by
  simp [extract_font_glyphs, List.mem_filterMap]

/-- The output's code points form a sublist of the input's keys. -/
theorem extract_keys_sublist (o : Oracles) (icc sp : Bool)
    (cmap : List (Nat × String)) :
    ((extract_font_glyphs o icc sp cmap).map GlyphRecord.codePoint).Sublist
      (cmap.map Prod.fst) := by
  induction cmap with
  | nil => simp [extract_font_glyphs]
  | cons hd tl ih =>
    rw [extract_font_glyphs_cons]
    cases h : processGlyph o icc sp hd.1 hd.2 with
    | none =>
      simp only [List.map_cons]
      exact ih.cons hd.1
    | some r =>
      simp only [List.map_cons, processGlyph_codePoint h]
      exact ih.cons₂ hd.1

/-- Distinct input keys give distinct output code points. -/
theorem extract_keys_nodup {o : Oracles} {icc sp : Bool}
    {cmap : List (Nat × String)} (h : (cmap.map Prod.fst).Nodup) :
    ((extract_font_glyphs o icc sp cmap).map GlyphRecord.codePoint).Nodup :=
  h.sublist (extract_keys_sublist o icc sp cmap)

/-- `enrich` is a permutation of the raw extraction output. -/
theorem enrich_perm_extract (o : Oracles) (icc sp : Bool)
    (cmap : List (Nat × String)) :
    (enrich o icc sp cmap).Perm (extract_font_glyphs o icc sp cmap) :=
  List.perm_insertionSort recLE _

/-- Membership in the sorted output. -/
theorem mem_enrich_iff (o : Oracles) (icc sp : Bool)
    (cmap : List (Nat × String)) (r : GlyphRecord) :
    r ∈ enrich o icc sp cmap ↔
      ∃ cg ∈ cmap, processGlyph o icc sp cg.1 cg.2 = some r := by
  rw [← mem_extract_iff o icc sp cmap r]
  exact (enrich_perm_extract o icc sp cmap).mem_iff

/-- Distinct input keys give distinct sorted output code points. -/
theorem enrich_keys_nodup {o : Oracles} {icc sp : Bool}
    {cmap : List (Nat × String)} (h : (cmap.map Prod.fst).Nodup) :
    ((enrich o icc sp cmap).map GlyphRecord.codePoint).Nodup :=
  (((enrich_perm_extract o icc sp cmap).map GlyphRecord.codePoint).nodup_iff).mpr
    (extract_keys_nodup h)

/-- A surviving code point appears exactly once in the output. -/
theorem enrich_count_key_one {o : Oracles} {icc sp : Bool}
    {cmap : List (Nat × String)} {cp : Nat} {g : String} {r : GlyphRecord}
    (hnd : (cmap.map Prod.fst).Nodup) (hmem : (cp, g) ∈ cmap)
    (hr : processGlyph o icc sp cp g = some r) :
    ((enrich o icc sp cmap).map GlyphRecord.codePoint).count cp = 1 :=
  List.count_eq_one_of_mem (enrich_keys_nodup hnd)
    (List.mem_map.mpr ⟨r, (mem_enrich_iff o icc sp cmap r).mpr
      ⟨(cp, g), hmem, hr⟩, processGlyph_codePoint hr⟩)

/-- A `filterMap` that succeeds everywhere keeps the length. -/
theorem filterMap_length_of_isSome {α β : Type} (f : α → Option β)
    (l : List α) (h : ∀ a ∈ l, (f a).isSome) :
    (l.filterMap f).length = l.length := by
  induction l with
  | nil => rfl
  | cons hd tl ih =>
    have hhd := h hd (List.mem_cons_self _ _)
    rw [List.filterMap_cons]
    cases hf : f hd with
    | none => rw [hf] at hhd; cases hhd
    | some b =>
      simp only [List.length_cons]
      rw [ih fun a ha => h a (List.mem_cons_of_mem _ ha)]

@[simp] theorem builtRecord_displayChar (o : Oracles) (sp : Bool) (cp : Nat) (g : String) :
    (builtRecord o sp cp g).displayChar =
      if !sp && strStartsWith ((o.category cp).getD "Cn") "C" then placeholderChar
      else [cp] := rfl

@[simp] theorem builtRecord_unicodeHex (o : Oracles) (sp : Bool) (cp : Nat) (g : String) :
    (builtRecord o sp cp g).unicodeHex = formatUnicodeHex cp := rfl

@[simp] theorem builtRecord_codePoint (o : Oracles) (sp : Bool) (cp : Nat) (g : String) :
    (builtRecord o sp cp g).codePoint = cp := rfl

@[simp] theorem builtRecord_category (o : Oracles) (sp : Bool) (cp : Nat) (g : String) :
    (builtRecord o sp cp g).category = (o.category cp).getD "Cn" := rfl

/-- Full case analysis of the per-item step as a single equation. -/
theorem processGlyph_eq (o : Oracles) (icc sp : Bool) (cp : Nat) (g : String) :
    processGlyph o icc sp cp g =
      if 0x10FFFF < cp then none
      else if (!icc && strStartsWith ((o.category cp).getD "Cn") "C") = true then none
      else some (builtRecord o sp cp g) := rfl

/-- When the filter fires, no record of the sorted output carries the
filtered code point. -/
theorem enrich_no_record_of_filter (o : Oracles) (sp : Bool)
    (cmap : List (Nat × String)) (cp : Nat)
    (hc : strStartsWith ((o.category cp).getD "Cn") "C" = true) :
    ∀ r ∈ enrich o false sp cmap, r.codePoint ≠ cp := by
  intro r hr hne
  rcases (mem_enrich_iff o false sp cmap r).mp hr with ⟨cg, -, hsome⟩
  have hcg : cg.1 = cp := by rw [← processGlyph_codePoint hsome, hne]
  rw [hcg, processGlyph_none_of_filter hc] at hsome
  exact Option.noConfusion hsome

/-- With control characters included, a mapped in-range code point
appears exactly once in the sorted output. -/
theorem enrich_count_one_of_include (o : Oracles) (sp : Bool)
    (cmap : List (Nat × String)) (cp : Nat) (g : String)
    (hmem : (cp, g) ∈ cmap) (hnd : (cmap.map Prod.fst).Nodup)
    (hcp : cp ≤ 0x10FFFF) :
    ((enrich o true sp cmap).map GlyphRecord.codePoint).count cp = 1 :=
  enrich_count_key_one hnd hmem (processGlyph_some_of_include hcp)

/-- Everything of a record except its `displayChar` field. -/
def stripDisplay (r : GlyphRecord) :
    Nat × String × String × String × String × String :=
  (r.codePoint, r.unicodeHex, r.unicodeName, r.unicodeBlock, r.glyphName, r.category)

/-- Comparison of stripped records by their code point, the sort key. -/
def tupLE (a b : Nat × String × String × String × String × String) : Prop :=
  a.1 ≤ b.1

instance : DecidableRel tupLE := fun a b => Nat.decLe a.1 b.1

/-- The per-item step's output, seen through `stripDisplay`, does not
depend on `show_preview`. -/
theorem processGlyph_map_strip (o : Oracles) (icc sp1 sp2 : Bool)
    (cp : Nat) (g : String) :
    (processGlyph o icc sp1 cp g).map stripDisplay =
      (processGlyph o icc sp2 cp g).map stripDisplay := by
  rw [processGlyph_eq o icc sp1, processGlyph_eq o icc sp2]
  split
  · rfl
  · split
    · rfl
    · rfl

/-- The extraction output, seen through `stripDisplay`, does not depend
on `show_preview`. -/
theorem extract_map_strip (o : Oracles) (icc sp1 sp2 : Bool)
    (cmap : List (Nat × String)) :
    (extract_font_glyphs o icc sp1 cmap).map stripDisplay =
      (extract_font_glyphs o icc sp2 cmap).map stripDisplay := by
  induction cmap with
  | nil => rfl
  | cons hd tl ih =>
    rw [extract_font_glyphs_cons, extract_font_glyphs_cons]
    have h := processGlyph_map_strip o icc sp1 sp2 hd.1 hd.2
    cases h1 : processGlyph o icc sp1 hd.1 hd.2 with
    | none =>
      cases h2 : processGlyph o icc sp2 hd.1 hd.2 with
      | none => exact ih
      | some r2 => rw [h1, h2] at h; exact Option.noConfusion h
    | some r1 =>
      cases h2 : processGlyph o icc sp2 hd.1 hd.2 with
      | none => rw [h1, h2] at h; exact Option.noConfusion h
      | some r2 =>
        rw [h1, h2] at h
        simp only [List.map_cons, ih]
        simp only [Option.map, Option.some.injEq] at h
        rw [h]

/-- Inserting commutes with `stripDisplay`: the sort position depends
only on the code point. -/
theorem orderedInsert_map_strip (a : GlyphRecord) (l : List GlyphRecord) :
    (List.orderedInsert recLE a l).map stripDisplay =
      List.orderedInsert tupLE (stripDisplay a) (l.map stripDisplay) := by
  induction l with
  | nil => rfl
  | cons b t ih =>
    by_cases h : recLE a b
    · have h' : tupLE (stripDisplay a) (stripDisplay b) := h
      simp only [List.orderedInsert, List.map_cons, if_pos h, if_pos h']
    · have h' : ¬tupLE (stripDisplay a) (stripDisplay b) := h
      simp only [List.orderedInsert, List.map_cons, if_neg h, if_neg h', ih]

/-- Sorting commutes with `stripDisplay`. -/
theorem insertionSort_map_strip (l : List GlyphRecord) :
    (List.insertionSort recLE l).map stripDisplay =
      List.insertionSort tupLE (l.map stripDisplay) := by
  induction l with
  | nil => rfl
  | cons a t ih =>
    simp only [List.insertionSort, List.map_cons]
    rw [orderedInsert_map_strip, ih]

/-- A concrete oracle for the witnesses.  On the code points the
witnesses use, it answers as CPython's `unicodedata` does (TAB 0x09 is
"Cc", capital letters are "Lu", the CJK ideograph 0x4E2D is "Lo", lone
surrogates are "Cs", and `unicodedata.name` raises on TAB and
surrogates); on every other code point it reports classification
failure (`none`). -/
def oracleStub : Oracles :=
  { category := fun cp =>
      if cp = 0x09 then some "Cc"
      else if 0xD800 ≤ cp ∧ cp ≤ 0xDFFF then some "Cs"
      else if cp = 0x41 ∨ cp = 0x42 then some "Lu"
      else if cp = 0x4E2D then some "Lo"
      else none
    uname := fun cp => if cp = 0x41 then some "LATIN CAPITAL LETTER A" else none
    glyphName := fun g => some g }

/-- C2: for a code point whose computed general category starts with
"C": with `include_control_chars = false` no record is produced for it,
and with `include_control_chars = true` exactly one record is produced,
whose `category` field is the computed category. -/
theorem claim_C2 (o : Oracles) (sp : Bool) (cmap : List (Nat × String))
    (cp : Nat) (g : String)
    (hmem : (cp, g) ∈ cmap) (hnd : (cmap.map Prod.fst).Nodup)
    (hcp : cp ≤ 0x10FFFF)
    (hc : strStartsWith ((o.category cp).getD "Cn") "C" = true) :
    (∀ r ∈ enrich o false sp cmap, r.codePoint ≠ cp)
    ∧ ((enrich o true sp cmap).map GlyphRecord.codePoint).count cp = 1
    ∧ ∀ r ∈ enrich o true sp cmap, r.codePoint = cp →
        r.category = (o.category cp).getD "Cn" := by
  refine ⟨enrich_no_record_of_filter o sp cmap cp hc,
    enrich_count_one_of_include o sp cmap cp g hmem hnd hcp, ?_⟩
  intro r hr hrcp
  rcases (mem_enrich_iff o true sp cmap r).mp hr with ⟨cg, -, hsome⟩
  rcases (processGlyph_some_iff o true sp cg.1 cg.2 r).mp hsome with ⟨-, -, rfl⟩
  have hc1 : cg.1 = cp := hrcp
  rw [builtRecord_category, hc1]

/-- C2 witness: the TAB example, category "Cc", on the singleton glyph
map. -/
theorem claim_C2_witness :
    (((0x09 : Nat), "tab") ∈ [((0x09 : Nat), "tab")]
    ∧ ([((0x09 : Nat), "tab")].map Prod.fst).Nodup
    ∧ (0x09 : Nat) ≤ 0x10FFFF
    ∧ strStartsWith ((oracleStub.category 0x09).getD "Cn") "C" = true)
    ∧ ((∀ r ∈ enrich oracleStub false true [(0x09, "tab")], r.codePoint ≠ 0x09)
    ∧ ((enrich oracleStub true true [(0x09, "tab")]).map
        GlyphRecord.codePoint).count 0x09 = 1
    ∧ ∀ r ∈ enrich oracleStub true true [(0x09, "tab")], r.codePoint = 0x09 →
        r.category = (oracleStub.category 0x09).getD "Cn") :=
  ⟨⟨by decide, by decide, by decide, by decide⟩,
   claim_C2 oracleStub true [(0x09, "tab")] 0x09 "tab"
     (by decide) (by decide) (by decide) (by decide)⟩

/-- C3: under distinct input keys, the sorted output's code points are
strictly increasing, and every surviving code point has exactly one
record. -/
theorem claim_C3 (o : Oracles) (icc sp : Bool) (cmap : List (Nat × String))
    (hnd : (cmap.map Prod.fst).Nodup) :
    List.Sorted (· < ·) ((enrich o icc sp cmap).map GlyphRecord.codePoint)
    ∧ ∀ cp g r, (cp, g) ∈ cmap → processGlyph o icc sp cp g = some r →
        ((enrich o icc sp cmap).map GlyphRecord.codePoint).count cp = 1 := by
  constructor
  · have hs : List.Pairwise recLE (enrich o icc sp cmap) :=
      List.sorted_insertionSort recLE _
    have hnodup : ((enrich o icc sp cmap).map GlyphRecord.codePoint).Nodup :=
      enrich_keys_nodup hnd
    unfold List.Nodup at hnodup
    rw [List.pairwise_map] at hnodup
    have hlt : List.Pairwise
        (fun a b : GlyphRecord => a.codePoint < b.codePoint)
        (enrich o icc sp cmap) :=
      (hs.and hnodup).imp fun h => Nat.lt_of_le_of_ne h.1 h.2
    exact List.pairwise_map.mpr hlt
  · intro cp g r hmem hr
    exact enrich_count_key_one hnd hmem hr

/-- C3 witness: a two-entry glyph map given in descending order comes
out strictly ascending with each code point counted once. -/
theorem claim_C3_witness :
    (([((0x42 : Nat), "B"), (0x41, "A")].map Prod.fst).Nodup)
    ∧ (List.Sorted (· < ·)
        ((enrich oracleStub true true [(0x42, "B"), (0x41, "A")]).map
          GlyphRecord.codePoint)
    ∧ ∀ cp g r, (cp, g) ∈ [((0x42 : Nat), "B"), (0x41, "A")] →
        processGlyph oracleStub true true cp g = some r →
        ((enrich oracleStub true true [(0x42, "B"), (0x41, "A")]).map
          GlyphRecord.codePoint).count cp = 1) :=
  ⟨by decide, claim_C3 oracleStub true true [(0x42, "B"), (0x41, "A")] (by decide)⟩

/-- C4: one invalid code point among entries that process normally is
skipped by the per-item fault absorption; the pass returns exactly one
record per normal entry and continues past the faulty one. -/
theorem claim_C4 (o : Oracles) (icc sp : Bool)
    (pre post : List (Nat × String)) (bad : Nat) (g : String)
    (hbad : 0x10FFFF < bad)
    (hok : ∀ cg ∈ pre ++ post, (processGlyph o icc sp cg.1 cg.2).isSome = true) :
    (enrich o icc sp (pre ++ (bad, g) :: post)).length = (pre ++ post).length := by
  have hpre : ∀ cg ∈ pre, (processGlyph o icc sp cg.1 cg.2).isSome = true :=
    fun cg hcg => hok cg (List.mem_append_left _ hcg)
  have hpost : ∀ cg ∈ post, (processGlyph o icc sp cg.1 cg.2).isSome = true :=
    fun cg hcg => hok cg (List.mem_append_right _ hcg)
  rw [(enrich_perm_extract o icc sp (pre ++ (bad, g) :: post)).length_eq]
  simp only [extract_font_glyphs, List.filterMap_append, List.filterMap_cons,
    processGlyph_none_of_invalid hbad, List.length_append]
  rw [filterMap_length_of_isSome _ _ hpre, filterMap_length_of_isSome _ _ hpost]

/-- C4 witness: the glyph map [0x41, 0x110000, 0x42] yields exactly two
records. -/
theorem claim_C4_witness :
    ((0x10FFFF : Nat) < 0x110000
    ∧ (∀ cg ∈ [((0x41 : Nat), "A")] ++ [((0x42 : Nat), "B")],
        (processGlyph oracleStub true true cg.1 cg.2).isSome = true))
    ∧ (enrich oracleStub true true
        ([((0x41 : Nat), "A")] ++ (0x110000, "bad") :: [((0x42 : Nat), "B")])).length =
      ([((0x41 : Nat), "A")] ++ [((0x42 : Nat), "B")]).length :=
  ⟨⟨by decide, by decide⟩,
   claim_C4 oracleStub true true [(0x41, "A")] [(0x42, "B")] 0x110000 "bad"
     (by decide) (by decide)⟩

/-- C5 counterexample: the claim says a surrogate code point produces no
record under any configuration because the conversion to a character
fails.  In CPython `chr(0xD800)` succeeds (lone surrogates are valid
`str` content) and `unicodedata.category` classifies it "Cs", so with
`include_control_chars = true` the loop produces a record for 0xD800. -/
theorem claim_C5_counterexample :
    (enrich oracleStub true true [(0xD800, "s")]).map GlyphRecord.codePoint =
      [0xD800] := by decide

/-- C5 amended: a surrogate code point does not fail conversion; its
category is "Cs", so it is dropped exactly when
`include_control_chars = false` and produces exactly one record when
`include_control_chars = true`. -/
theorem claim_C5_amended (o : Oracles) (sp : Bool) (cmap : List (Nat × String))
    (cp : Nat) (g : String) (hmem : (cp, g) ∈ cmap)
    (hnd : (cmap.map Prod.fst).Nodup)
    (hsur : 0xD800 ≤ cp ∧ cp ≤ 0xDFFF)
    (hcat : o.category cp = some "Cs") :
    (∀ r ∈ enrich o false sp cmap, r.codePoint ≠ cp)
    ∧ ((enrich o true sp cmap).map GlyphRecord.codePoint).count cp = 1 := by
  have hc : strStartsWith ((o.category cp).getD "Cn") "C" = true := by
    rw [hcat]; decide
  exact ⟨enrich_no_record_of_filter o sp cmap cp hc,
    enrich_count_one_of_include o sp cmap cp g hmem hnd (by omega)⟩

/-- C5 witness: the amended behaviour at the concrete surrogate
0xD800. -/
theorem claim_C5_witness :
    (((0xD800 : Nat), "s2") ∈ [((0xD800 : Nat), "s2")]
    ∧ ([((0xD800 : Nat), "s2")].map Prod.fst).Nodup
    ∧ ((0xD800 : Nat) ≤ 0xD800 ∧ (0xD800 : Nat) ≤ 0xDFFF)
    ∧ oracleStub.category 0xD800 = some "Cs")
    ∧ ((∀ r ∈ enrich oracleStub false true [(0xD800, "s2")], r.codePoint ≠ 0xD800)
    ∧ ((enrich oracleStub true true [(0xD800, "s2")]).map
        GlyphRecord.codePoint).count 0xD800 = 1) :=
  ⟨⟨by decide, by decide, by decide, by decide⟩,
   claim_C5_amended oracleStub true [(0xD800, "s2")] 0xD800 "s2"
     (by decide) (by decide) (by decide) (by decide)⟩

/-- C6: for every surviving record, if `show_preview = false` and the
category starts with "C" the display character is the placeholder "□";
in every other case it is the literal character of the code point. -/
theorem claim_C6 (o : Oracles) (icc sp : Bool) (cmap : List (Nat × String)) :
    ∀ r ∈ enrich o icc sp cmap,
      ((sp = false ∧ strStartsWith r.category "C" = true) →
        r.displayChar = placeholderChar)
      ∧ ((sp = true ∨ strStartsWith r.category "C" = false) →
        r.displayChar = [r.codePoint]) := by
  intro r hr
  rcases (mem_enrich_iff o icc sp cmap r).mp hr with ⟨cg, -, hsome⟩
  rcases (processGlyph_some_iff o icc sp cg.1 cg.2 r).mp hsome with ⟨-, -, rfl⟩
  constructor
  · rintro ⟨rfl, hcat⟩
    rw [builtRecord_category] at hcat
    rw [builtRecord_displayChar]
    simp [hcat]
  · intro h
    rw [builtRecord_displayChar, builtRecord_codePoint]
    rcases h with rfl | hcat
    · simp
    · rw [builtRecord_category] at hcat
      simp [hcat]

/-- C6 witness: TAB with `include_control_chars = true` and
`show_preview = false` gets the placeholder, not the literal tab. -/
theorem claim_C6_witness :
    (builtRecord oracleStub false 0x09 "tab" ∈
      enrich oracleStub true false [(0x09, "tab")])
    ∧ ((((false : Bool) = false
        ∧ strStartsWith (builtRecord oracleStub false 0x09 "tab").category "C" = true) →
        (builtRecord oracleStub false 0x09 "tab").displayChar = placeholderChar)
    ∧ (((false : Bool) = true
        ∨ strStartsWith (builtRecord oracleStub false 0x09 "tab").category "C" = false) →
        (builtRecord oracleStub false 0x09 "tab").displayChar =
          [(builtRecord oracleStub false 0x09 "tab").codePoint])) :=
  ⟨by decide,
   claim_C6 oracleStub true false [(0x09, "tab")]
     (builtRecord oracleStub false 0x09 "tab") (by decide)⟩

/-- C8: when the general-category classification raises, the category
defaults to "Cn" without propagating an error, and the item is then
produced or dropped by the normal filtering rules applied to "Cn". -/
theorem claim_C8 (o : Oracles) (icc sp : Bool) (cp : Nat) (g : String)
    (hfail : o.category cp = none) (hcp : cp ≤ 0x10FFFF) :
    (icc = false → processGlyph o icc sp cp g = none)
    ∧ (icc = true → ∃ r, processGlyph o icc sp cp g = some r ∧
        r.category = "Cn") := by
  have hcat : (o.category cp).getD "Cn" = "Cn" := by rw [hfail]; rfl
  constructor
  · rintro rfl
    apply processGlyph_none_of_filter
    rw [hcat]
    decide
  · rintro rfl
    exact ⟨builtRecord o sp cp g, processGlyph_some_of_include hcp,
      by rw [builtRecord_category, hcat]⟩

/-- C8 witness: the stub oracle reports classification failure at 0x50;
with `include_control_chars = true` a record with category "Cn" comes
out. -/
theorem claim_C8_witness :
    (oracleStub.category 0x50 = none ∧ (0x50 : Nat) ≤ 0x10FFFF)
    ∧ (((true : Bool) = false → processGlyph oracleStub true true 0x50 "P" = none)
    ∧ ((true : Bool) = true → ∃ r, processGlyph oracleStub true true 0x50 "P" = some r ∧
        r.category = "Cn")) :=
  ⟨⟨by decide, by decide⟩,
   claim_C8 oracleStub true true 0x50 "P" (by decide) (by decide)⟩

/-- Each digit character below 16 is an uppercase hex digit. -/
theorem hexDigit_mem : ∀ m, m < 16 →
    hexDigit m ∈ ['0', '1', '2', '3', '4', '5', '6', '7', '8', '9',
      'A', 'B', 'C', 'D', 'E', 'F'] := by decide

/-- Every character the digit extraction emits is an uppercase hex
digit, whatever the fuel. -/
theorem hexDigitsAux_mem (fuel n : Nat) :
    ∀ c ∈ hexDigitsAux fuel n,
      c ∈ ['0', '1', '2', '3', '4', '5', '6', '7', '8', '9',
        'A', 'B', 'C', 'D', 'E', 'F'] := by
  induction fuel generalizing n with
  | zero =>
    intro c hc
    cases hc
  | succ fuel ih =>
    intro c hc
    simp only [hexDigitsAux] at hc
    by_cases h : n < 16
    · rw [if_pos h, List.mem_singleton] at hc
      exact hc ▸ hexDigit_mem n h
    · rw [if_neg h, List.mem_append] at hc
      rcases hc with hc | hc
      · exact ih (n / 16) c hc
      · rw [List.mem_singleton] at hc
        exact hc ▸ hexDigit_mem (n % 16) (Nat.mod_lt _ (by omega))

/-- The "U+XXXX" rendering is at least six characters long: "U+" plus
hex digits zero-padded to a minimum of four. -/
theorem formatUnicodeHex_length (cp : Nat) : 6 ≤ (formatUnicodeHex cp).length := by
  have h2 : ("U+" : String).length = 2 := rfl
  have h3 : ∀ l : List Char, (String.mk l).length = l.length := fun _ => rfl
  simp only [formatUnicodeHex]
  rw [String.length_append, h2, h3, List.length_append, List.length_replicate]
  omega

/-- C9: every record's serialized code point is "U+" followed by the
uppercase hexadecimal digits of the code point, left-padded with zeros
to a minimum of four digits (larger code points keep all their digits),
and `save_table` hands over only the five exported columns, dropping
the internal `CodePoint` and `Category` fields. -/
theorem claim_C9 (o : Oracles) (icc sp : Bool) (cmap : List (Nat × String)) :
    (∀ r ∈ enrich o icc sp cmap, r.unicodeHex = formatUnicodeHex r.codePoint)
    ∧ (∀ n : Nat, ∀ c ∈ hexDigits n,
        c ∈ ['0', '1', '2', '3', '4', '5', '6', '7', '8', '9',
          'A', 'B', 'C', 'D', 'E', 'F'])
    ∧ (∀ cp : Nat, 6 ≤ (formatUnicodeHex cp).length)
    ∧ formatUnicodeHex 0x41 = "U+0041"
    ∧ formatUnicodeHex 0x10FFFF = "U+10FFFF"
    ∧ (∀ data : List GlyphRecord,
        save_table data = (sortByCodePoint data).map dropInternalColumns) := by
  refine ⟨?_, fun n => hexDigitsAux_mem (n + 1) n, formatUnicodeHex_length,
    by decide, by decide, fun _ => rfl⟩
  intro r hr
  rcases (mem_enrich_iff o icc sp cmap r).mp hr with ⟨cg, -, hsome⟩
  rcases (processGlyph_some_iff o icc sp cg.1 cg.2 r).mp hsome with ⟨-, -, rfl⟩
  rw [builtRecord_unicodeHex, builtRecord_codePoint]

/-- C9 witness: the record for 0x41 carries "U+0041". -/
theorem claim_C9_witness :
    (builtRecord oracleStub true 0x41 "A" ∈
      enrich oracleStub true true [(0x41, "A")])
    ∧ (builtRecord oracleStub true 0x41 "A").unicodeHex =
        formatUnicodeHex (builtRecord oracleStub true 0x41 "A").codePoint :=
  ⟨by decide,
   (claim_C9 oracleStub true true [(0x41, "A")]).1
     (builtRecord oracleStub true 0x41 "A") (by decide)⟩

/-- C10: `show_preview` does not influence which code points are
retained: with `include_control_chars` fixed, the outputs for
`show_preview = true` and `show_preview = false` agree on every field
except possibly `displayChar`, and in particular list the same code
points in the same order. -/
theorem claim_C10 (o : Oracles) (icc : Bool) (cmap : List (Nat × String)) :
    (enrich o icc true cmap).map stripDisplay =
      (enrich o icc false cmap).map stripDisplay
    ∧ (enrich o icc true cmap).map GlyphRecord.codePoint =
      (enrich o icc false cmap).map GlyphRecord.codePoint := by
  have h1 : (enrich o icc true cmap).map stripDisplay =
      (enrich o icc false cmap).map stripDisplay := by
    unfold enrich sortByCodePoint
    rw [insertionSort_map_strip, insertionSort_map_strip,
      extract_map_strip o icc true false cmap]
  refine ⟨h1, ?_⟩
  have h2 : GlyphRecord.codePoint = Prod.fst ∘ stripDisplay := rfl
  rw [h2, ← List.map_map, ← List.map_map, h1]
